import Mathlib

/-!
Verification of the firesite service-registry core: a shallow embedding of
the three record-store adapters (file-backed `NodeServiceRegistry`,
HTTP-backed `BrowserServiceRegistry`, event-store-backed
`FirebaseServiceRegistry`) together with proofs about their registration,
discovery, unregistration, health-check, cleanup and namespace-sanitization
behaviour.

Store access, process probes and HTTP probes are effects; they are embedded
as explicit environment parameters (per-attempt load results, a
process-aliveness predicate, a health-probe predicate, save-success flags)
and explicit state passing.  Timestamps are milliseconds as `Nat`.
-/

/-! ## Data model (src/types/index.ts) -/

/-- `ServiceInfo` from src/types/index.ts.  ISO timestamp strings are
embedded as millisecond `Nat`s; `metadata` is an association list. -/
structure ServiceInfo where
  name : String
  port : Nat
  pid : Option Nat
  status : String
  startedAt : Nat
  healthUrl : Option String
  healthCheckUrl : Option String
  metadata : List (String × String)
  lastHealthCheck : Option Nat
  isHealthy : Option Bool
deriving DecidableEq

/-- The persisted registry snapshot: a `services` map plus `lastUpdated`. -/
structure Registry where
  services : List (String × ServiceInfo)
  lastUpdated : Nat
deriving DecidableEq

/-- `RegisterOptions` from src/types/index.ts. -/
structure RegisterOptions where
  port : Nat
  pid : Option Nat
  healthUrl : Option String
  metadata : Option (List (String × String))
deriving DecidableEq

/-- The error classes of src/types/index.ts, by kind. -/
inductive RegError where
  | serviceNotFound (serviceName : String)
  | registryUnavailable (message : String)
  | healthCheckFailed (serviceName : String)
deriving DecidableEq

deriving instance DecidableEq for Except

/-- Lookup in a `services`-style association map (JS object keyed by name). -/
def alookup {α : Type} : List (String × α) → String → Option α
  | [], _ => none
  | (k, v) :: rest, n => if k = n then some v else alookup rest n

/-- `registry.services[name] = info`: overwrite in place or append. -/
def aset {α : Type} : List (String × α) → String → α → List (String × α)
  | [], n, v => [(n, v)]
  | (k, w) :: rest, n, v =>
    if k = n then (n, v) :: rest else (k, w) :: aset rest n v

/-- `delete registry.services[name]`. -/
def aremove {α : Type} (l : List (String × α)) (n : String) : List (String × α) :=
  l.filter (fun p => p.1 != n)

/-! ## Namespace sanitization (FirebaseServiceRegistry.sanitizeUserId) -/

/-- Characters kept by the `[^a-z0-9-_]` replacement regex. -/
def isAllowedChar (c : Char) : Bool :=
  ('a' ≤ c && c ≤ 'z') || ('0' ≤ c && c ≤ '9') || c = '-' || c = '_'

/-- `.replace(/[^a-z0-9-_]/g, '-')` applied character-wise. -/
def replaceInvalidChar (c : Char) : Char :=
  if isAllowedChar c then c else '-'

/-- The dash-run collapse step (regex replace of one-or-more dashes by one). -/
def collapseDashes : List Char → List Char
  | [] => []
  | [c] => [c]
  | c :: d :: rest =>
    if c = '-' && d = '-' then collapseDashes (d :: rest)
    else c :: collapseDashes (d :: rest)

/-- Drop a single leading dash, as one alternative of `/^-|-$/g`. -/
def dropOneLeadingDash : List Char → List Char
  | '-' :: rest => rest
  | l => l

/-- `.replace(/^-|-$/g, '')`: remove one leading and one trailing dash
(the regex anchors match at most once each). -/
def trimDashes (l : List Char) : List Char :=
  ((dropOneLeadingDash l).reverse |> dropOneLeadingDash).reverse

/-- The sanitization pipeline before the empty-result fallback: lowercase,
replace invalid characters, collapse dashes, trim dashes, truncate to 50. -/
def sanitizeCore (s : String) : List Char :=
  (trimDashes (collapseDashes ((s.toList.map Char.toLower).map replaceInvalidChar))).take 50

/-- `FirebaseServiceRegistry.sanitizeUserId`
(src/node/firebase-registry.ts lines 307-315). -/
def FirebaseServiceRegistry.sanitizeUserId (s : String) : String :=
  let l := sanitizeCore s
  if l.isEmpty then "unknown-user" else String.mk l

theorem sanitizeCore_length_le (s : String) : (sanitizeCore s).length ≤ 50 := by
  unfold sanitizeCore
  simp [List.length_take]

theorem sanitizeUserId_length_le (s : String) :
    (FirebaseServiceRegistry.sanitizeUserId s).length ≤ 50 := by
  unfold FirebaseServiceRegistry.sanitizeUserId
  by_cases h : (sanitizeCore s).isEmpty
  · simp only [h, if_true]
    decide
  · simp only [h, if_false, Bool.false_eq_true]
    show (String.mk (sanitizeCore s)).length ≤ 50
    have hc := sanitizeCore_length_le s
    simpa [String.length] using hc

/-- C9: the namespace sanitization lowercases, replaces characters outside
`[a-z0-9-_]` with `-`, collapses dash runs, trims a leading/trailing dash,
truncates to 50 characters and falls back to the constant `"unknown-user"`
when empty; `"User@Name.With#Invalid$Chars!"` maps to
`"user-name-with-invalid-chars"`, empty and all-invalid inputs map to the
fallback, and every 100-character input maps to at most 50 characters. -/
theorem c9_sanitize_userid :
    FirebaseServiceRegistry.sanitizeUserId "User@Name.With#Invalid$Chars!" =
      "user-name-with-invalid-chars" ∧
    FirebaseServiceRegistry.sanitizeUserId "" = "unknown-user" ∧
    FirebaseServiceRegistry.sanitizeUserId "@#$!" = "unknown-user" ∧
    ∀ s : String, s.length = 100 →
      (FirebaseServiceRegistry.sanitizeUserId s).length ≤ 50 := by
  refine ⟨by decide, by decide, by decide, ?_⟩
  intro s _
  exact sanitizeUserId_length_le s

/-- Witness for `c9_sanitize_userid` at a concrete 100-character input. -/
theorem c9_sanitize_userid_witness :
    (String.mk (List.replicate 100 'a')).length = 100 ∧
    (FirebaseServiceRegistry.sanitizeUserId (String.mk (List.replicate 100 'a'))).length ≤ 50 :=
  ⟨by decide, c9_sanitize_userid.2.2.2 (String.mk (List.replicate 100 'a')) (by decide)⟩

/-! ## File-backed adapter (src/node/node-registry.ts)

Effects are environment parameters: `load` is the outcome of reading the
snapshot file (`loadRegistry`, absorbing the missing-file-means-empty rule
into the `.ok` case), `saveOk` whether `saveRegistry` succeeds, `alive`
the signal-0 process probe, `health` the HTTP probe (which in the source
catches all failures and returns a boolean). -/

/-- `options.pid || process.pid` — JS truthiness makes a supplied 0 fall
back to the current process id. -/
def effectivePid (opid : Option Nat) (procPid : Nat) : Nat :=
  match opid with
  | some p => if p = 0 then procPid else p
  | none => procPid

/-- The derived health-check URL
(`http://localhost:` ++ port ++ healthUrl when a health path is given). -/
def healthCheckUrlFor (port : Nat) (healthUrl : Option String) : Option String :=
  healthUrl.map (fun h => "http://localhost:" ++ toString port ++ h)

/-- The `ServiceInfo` built by `NodeServiceRegistry.register`
(node-registry.ts lines 76-87). -/
def NodeServiceRegistry.registerInfo (name : String) (o : RegisterOptions)
    (procPid now : Nat) : ServiceInfo :=
  { name := name
    port := o.port
    pid := some (effectivePid o.pid procPid)
    status := "running"
    startedAt := now
    healthUrl := o.healthUrl
    healthCheckUrl := healthCheckUrlFor o.port o.healthUrl
    metadata := o.metadata.getD []
    lastHealthCheck := some now
    isHealthy := some true }

/-- `NodeServiceRegistry.register` (node-registry.ts lines 69-100): load the
snapshot, overwrite the record, save; any failure surfaces as
`RegistryUnavailableError`. -/
def NodeServiceRegistry.register (load : Except String Registry) (saveOk : Bool)
    (procPid now : Nat) (name : String) (o : RegisterOptions) :
    Except RegError Registry :=
  match load with
  | .error e => .error (.registryUnavailable ("Failed to register service: " ++ e))
  | .ok reg =>
    if saveOk then
      .ok { services := aset reg.services name (NodeServiceRegistry.registerInfo name o procPid now)
            lastUpdated := now }
    else .error (.registryUnavailable "Failed to register service: save failed")

/-- The attempt loop of `NodeServiceRegistry.discover` (node-registry.ts
lines 110-142).  `loads attempt` is the outcome of `loadRegistry` on that
attempt; `hasErr` records whether a previous attempt failed (`lastError`).
On a successful load an absent name returns `none` immediately; a present
record is optionally health-probed (`includeHealth`), where the inner catch
turns a failed registry re-save into `isHealthy = false`. -/
def NodeServiceRegistry.discoverGo (loads : Nat → Except String Registry)
    (includeHealth : Bool) (health : String → Bool) (saveOk : Bool) (now : Nat)
    (name : String) : Nat → Nat → Bool → Except RegError (Option ServiceInfo)
  | _, 0, hasErr =>
    if hasErr then .error (.registryUnavailable "Failed to discover service")
    else .ok none
  | attempt, fuel+1, hasErr =>
    match loads attempt with
    | .error _ =>
      NodeServiceRegistry.discoverGo loads includeHealth health saveOk now name
        (attempt+1) fuel true
    | .ok reg =>
      match alookup reg.services name with
      | none => .ok none
      | some svc =>
        if includeHealth then
          match svc.healthCheckUrl with
          | some url =>
            let h := health url
            if saveOk then
              .ok (some { svc with isHealthy := some h, lastHealthCheck := some now })
            else
              .ok (some { svc with isHealthy := some false, lastHealthCheck := some now })
          | none => .ok (some svc)
        else .ok (some svc)

/-- `NodeServiceRegistry.discover` (node-registry.ts lines 105-153): runs
`retries + 1` attempts. -/
def NodeServiceRegistry.discover (loads : Nat → Except String Registry)
    (includeHealth : Bool) (health : String → Bool) (saveOk : Bool) (now : Nat)
    (name : String) (retries : Nat) : Except RegError (Option ServiceInfo) :=
  NodeServiceRegistry.discoverGo loads includeHealth health saveOk now name 0 (retries+1) false

/-- `NodeServiceRegistry.unregister` (node-registry.ts lines 158-181): a
missing record raises `ServiceNotFoundError` (re-thrown as-is by the outer
catch); any store failure raises `RegistryUnavailableError`. -/
def NodeServiceRegistry.unregister (load : Except String Registry) (saveOk : Bool)
    (now : Nat) (name : String) : Except RegError Registry :=
  match load with
  | .error e => .error (.registryUnavailable ("Failed to unregister service: " ++ e))
  | .ok reg =>
    match alookup reg.services name with
    | none => .error (.serviceNotFound name)
    | some _ =>
      if saveOk then
        .ok { services := aremove reg.services name, lastUpdated := now }
      else .error (.registryUnavailable "Failed to unregister service: save failed")

/-- Result of a health-check operation together with the number of HTTP
health probes it performed (the only network calls the file adapter makes). -/
structure NodeHealthOut where
  result : Except RegError Bool
  healthProbes : Nat
deriving DecidableEq

/-- The probe-and-record loop of `NodeServiceRegistry.checkHealth`
(node-registry.ts lines 202-224): each attempt probes (the probe itself
never throws), then re-loads and re-saves the snapshot to record the
result; a failing re-load or re-save is caught and triggers a retry;
exhausted attempts raise `HealthCheckError`. -/
def NodeServiceRegistry.checkLoop (health : String → Bool) (url name : String)
    (loads2 : Nat → Except String Registry) (saveOks : Nat → Bool) :
    Nat → Nat → Nat → NodeHealthOut
  | _, 0, probes => ⟨.error (.healthCheckFailed name), probes⟩
  | attempt, fuel+1, probes =>
    let h := health url
    match loads2 attempt with
    | .error _ =>
      NodeServiceRegistry.checkLoop health url name loads2 saveOks (attempt+1) fuel (probes+1)
    | .ok reg =>
      match alookup reg.services name with
      | some _ =>
        if saveOks attempt then ⟨.ok h, probes+1⟩
        else NodeServiceRegistry.checkLoop health url name loads2 saveOks (attempt+1) fuel (probes+1)
      | none => ⟨.ok h, probes+1⟩

/-- `NodeServiceRegistry.checkHealth` (node-registry.ts lines 186-225):
discover with default options, raise `ServiceNotFoundError` on absence,
return `true` with no probe when the record has no health-check URL,
otherwise run the probe loop. -/
def NodeServiceRegistry.checkHealth (dloads : Nat → Except String Registry)
    (loads2 : Nat → Except String Registry) (saveOks : Nat → Bool)
    (health : String → Bool) (now : Nat) (name : String) (retries : Nat) :
    NodeHealthOut :=
  match NodeServiceRegistry.discover dloads false health true now name retries with
  | .error e => ⟨.error e, 0⟩
  | .ok none => ⟨.error (.serviceNotFound name), 0⟩
  | .ok (some svc) =>
    match svc.healthCheckUrl with
    | none => ⟨.ok true, 0⟩
    | some url => NodeServiceRegistry.checkLoop health url name loads2 saveOks 0 (retries+1) 0

/-- The per-record staleness decision inside `NodeServiceRegistry.cleanup`
(node-registry.ts lines 253-284): only records older than the service
timeout are candidates; a truthy `pid` whose process is gone is removed at
once (`continue`), otherwise a record with a health-check URL is removed
when the probe reports unhealthy (the probe never throws, so the catch arm
coincides with the unhealthy case). -/
def NodeServiceRegistry.staleCheck (alive : Nat → Bool) (health : String → Bool)
    (now timeout : Nat) (s : ServiceInfo) : Bool :=
  if timeout < now - s.startedAt then
    match s.pid with
    | some p =>
      if p ≠ 0 then
        if alive p then
          match s.healthCheckUrl with
          | some url => !health url
          | none => false
        else true
      else
        match s.healthCheckUrl with
        | some url => !health url
        | none => false
    | none =>
      match s.healthCheckUrl with
      | some url => !health url
      | none => false
  else false

/-- `NodeServiceRegistry.cleanup` (node-registry.ts lines 246-295): load the
snapshot (a failing load is caught and swallowed), drop every stale record,
save only when something was removed (a failing save is also caught and
swallowed).  The result is `.ok (some reg)` when a pruned snapshot was
saved and `.ok none` when the store was left untouched; no branch raises. -/
def NodeServiceRegistry.cleanup (load : Except String Registry) (alive : Nat → Bool)
    (health : String → Bool) (saveOk : Bool) (now timeout : Nat) :
    Except RegError (Option Registry) :=
  match load with
  | .error _ => .ok none
  | .ok reg =>
    let kept := reg.services.filter
      (fun p => !NodeServiceRegistry.staleCheck alive health now timeout p.2)
    if kept.length ≠ reg.services.length then
      if saveOk then .ok (some { services := kept, lastUpdated := now })
      else .ok none
    else .ok none

/-! ## HTTP-backed adapter (src/browser/browser-registry.ts)

The browser adapter reaches its store only over the network: `nets attempt`
is the outcome of the HTTP snapshot fetch on that attempt, and the
short-lived cache is explicit state (`some (data, timestamp)`).  Network
activity is counted: `netFetches` counts registry-snapshot fetches,
`healthProbes` counts HTTP health probes. -/

/-- The cache entry of `BrowserServiceRegistry` (data plus insert time). -/
def BrowserCache : Type := Option (Registry × Nat)

/-- Outcome of `fetchRegistry`: result, updated cache, and how many network
fetches were made. -/
structure FetchOut where
  result : Except RegError Registry
  cache : Option (Registry × Nat)
  netFetches : Nat

/-- `BrowserServiceRegistry.fetchRegistry` (browser-registry.ts lines
205-255): serve from the cache within its 5000 ms TTL; otherwise fetch over
HTTP, falling back to stale cached data when the fetch fails, and raising
`RegistryUnavailableError` only when there is no cache at all. -/
def BrowserServiceRegistry.fetchRegistry (cache : Option (Registry × Nat))
    (now : Nat) (net : Except String Registry) : FetchOut :=
  match cache with
  | some (d, t) =>
    if now - t < 5000 then ⟨.ok d, cache, 0⟩
    else
      match net with
      | .ok r => ⟨.ok r, some (r, now), 1⟩
      | .error _ => ⟨.ok d, cache, 1⟩
  | none =>
    match net with
    | .ok r => ⟨.ok r, some (r, now), 1⟩
    | .error e => ⟨.error (.registryUnavailable ("Failed to fetch registry: " ++ e)), none, 1⟩

/-- Outcome of a browser discovery: result, final cache, and network
activity counts. -/
structure BrowserOut where
  result : Except RegError (Option ServiceInfo)
  cache : Option (Registry × Nat)
  netFetches : Nat
  healthProbes : Nat

/-- The attempt loop of `BrowserServiceRegistry.discover`
(browser-registry.ts lines 84-120).  A successful fetch with an absent name
returns `none` at once; a present record is optionally probed
(`includeHealth`), the probe result being folded into a copy of the record
(the browser never writes the store). -/
def BrowserServiceRegistry.discoverGo (nets : Nat → Except String Registry)
    (includeHealth : Bool) (health : String → Bool) (now : Nat) (name : String) :
    Option (Registry × Nat) → Nat → Nat → Bool → Nat → BrowserOut
  | cache, _, 0, hasErr, acc =>
    if hasErr then ⟨.error (.registryUnavailable "Failed to discover service"), cache, acc, 0⟩
    else ⟨.ok none, cache, acc, 0⟩
  | cache, attempt, fuel+1, _, acc =>
    let f := BrowserServiceRegistry.fetchRegistry cache now (nets attempt)
    match f.result with
    | .error _ =>
      BrowserServiceRegistry.discoverGo nets includeHealth health now name
        f.cache (attempt+1) fuel true (acc + f.netFetches)
    | .ok reg =>
      match alookup reg.services name with
      | none => ⟨.ok none, f.cache, acc + f.netFetches, 0⟩
      | some svc =>
        if includeHealth then
          match svc.healthCheckUrl with
          | some url =>
            ⟨.ok (some { svc with isHealthy := some (health url), lastHealthCheck := some now }),
              f.cache, acc + f.netFetches, 1⟩
          | none => ⟨.ok (some svc), f.cache, acc + f.netFetches, 0⟩
        else ⟨.ok (some svc), f.cache, acc + f.netFetches, 0⟩

/-- `BrowserServiceRegistry.discover` (browser-registry.ts lines 79-131). -/
def BrowserServiceRegistry.discover (nets : Nat → Except String Registry)
    (includeHealth : Bool) (health : String → Bool) (cache : Option (Registry × Nat))
    (now : Nat) (name : String) (retries : Nat) : BrowserOut :=
  BrowserServiceRegistry.discoverGo nets includeHealth health now name cache 0 (retries+1) false 0

/-- The error message of `BrowserServiceRegistry.register`. -/
def BrowserServiceRegistry.registerMessage : String :=
  "Service registration is not supported in browser environment. Services should register themselves via their Node.js processes."

/-- The error message of `BrowserServiceRegistry.unregister`. -/
def BrowserServiceRegistry.unregisterMessage : String :=
  "Service unregistration is not supported in browser environment. Services should unregister themselves via their Node.js processes."

/-- `BrowserServiceRegistry.register` (browser-registry.ts lines 69-74):
throws `RegistryUnavailableError` unconditionally, before any network or
cache activity; the cache state is returned unchanged and no fetch is
counted. -/
def BrowserServiceRegistry.register (cache : Option (Registry × Nat))
    (name : String) (o : RegisterOptions) :
    Except RegError Unit × Option (Registry × Nat) × Nat :=
  (.error (.registryUnavailable BrowserServiceRegistry.registerMessage), cache, 0)

/-- `BrowserServiceRegistry.unregister` (browser-registry.ts lines 137-142):
throws `RegistryUnavailableError` unconditionally, before any network or
cache activity. -/
def BrowserServiceRegistry.unregister (cache : Option (Registry × Nat))
    (name : String) : Except RegError Unit × Option (Registry × Nat) × Nat :=
  (.error (.registryUnavailable BrowserServiceRegistry.unregisterMessage), cache, 0)

/-- Outcome of a browser health check, with network activity counts. -/
structure BrowserHealthOut where
  result : Except RegError Bool
  cache : Option (Registry × Nat)
  netFetches : Nat
  healthProbes : Nat

/-- `BrowserServiceRegistry.checkHealth` (browser-registry.ts lines
147-176): discover with default options, raise `ServiceNotFoundError` on
absence, return `true` with no probe when the record has no health-check
URL; otherwise the first probe attempt returns (the browser probe catches
every failure and returns a boolean). -/
def BrowserServiceRegistry.checkHealth (nets : Nat → Except String Registry)
    (health : String → Bool) (cache : Option (Registry × Nat)) (now : Nat)
    (name : String) (retries : Nat) : BrowserHealthOut :=
  let d := BrowserServiceRegistry.discover nets false health cache now name retries
  match d.result with
  | .error e => ⟨.error e, d.cache, d.netFetches, d.healthProbes⟩
  | .ok none => ⟨.error (.serviceNotFound name), d.cache, d.netFetches, d.healthProbes⟩
  | .ok (some svc) =>
    match svc.healthCheckUrl with
    | none => ⟨.ok true, d.cache, d.netFetches, d.healthProbes⟩
    | some url => ⟨.ok (health url), d.cache, d.netFetches, d.healthProbes + 1⟩

/-- `BrowserServiceRegistry.cleanup` (browser-registry.ts lines 198-201):
clears the local cache and returns normally; no branch raises. -/
def BrowserServiceRegistry.cleanup (cache : Option (Registry × Nat)) :
    Except RegError Unit × Option (Registry × Nat) :=
  (.ok (), none)

/-! ## Event-store-backed adapter (src/node/firebase-registry.ts)

The primary store is a pair of per-user maps (`services`, `presence`);
`connOk` models whether the store's round trips succeed, `initOk` whether
`initializeFirebase` has the adapter in the initialized state for the
operation (when it does not, the operation delegates to the embedded
file-backed fallback registry). -/

/-- A presence record (firebase-registry.ts lines 408-414). -/
structure Presence where
  online : Bool
  lastSeen : Nat
  pid : Nat
  userId : String
  hostname : String
deriving DecidableEq

/-- The primary event store: service records plus presence records. -/
structure FbStore where
  services : List (String × ServiceInfo)
  presence : List (String × Presence)
deriving DecidableEq

/-- Initialization guard of every operation
(`if (this.isInitialized) return;` — firebase-registry.ts lines 113-214):
an already-initialized adapter skips the attempt; otherwise the primary
store is attempted and `isInitialized` becomes the attempt's outcome (a
failure leaves it `false`). -/
def FirebaseServiceRegistry.initializeFirebase (isInitialized : Bool)
    (attemptSucceeds : Bool) : Bool × Bool :=
  if isInitialized then (true, false) else (attemptSucceeds, true)

/-- What one operation observes of the initialization gate: the
`isInitialized` flag after the operation, whether the operation attempted
to reach the primary store's initialization, and whether it then used the
primary store (as every operation does exactly when `isInitialized` holds
afterwards). -/
structure FbOp where
  isInitialized : Bool
  attemptedPrimary : Bool
  usedPrimary : Bool
deriving DecidableEq

/-- One operation's passage through `initializeFirebase` followed by the
`if (!this.isInitialized ...) return this.fallbackRegistry...` branch. -/
def FirebaseServiceRegistry.opGate (st : Bool) (attemptSucceeds : Bool) : FbOp :=
  let g := FirebaseServiceRegistry.initializeFirebase st attemptSucceeds
  ⟨g.1, g.2, g.1⟩

/-- A sequence of operations on one adapter instance; `envs` gives, per
operation, whether a primary-store initialization attempt would succeed at
that moment. -/
def FirebaseServiceRegistry.runOps (envs : List Bool) (st : Bool) : List FbOp :=
  match envs with
  | [] => []
  | e :: rest =>
    let o := FirebaseServiceRegistry.opGate st e
    o :: FirebaseServiceRegistry.runOps rest o.isInitialized

/-- The `ServiceInfo` built by `FirebaseServiceRegistry.register`
(firebase-registry.ts lines 378-396): identical to the file adapter's
record except that `metadata` is augmented with the `userId`, `hostname`,
`nodeVersion`, `platform` and `sessionId` keys. -/
def FirebaseServiceRegistry.registerInfo (name : String) (o : RegisterOptions)
    (procPid now : Nat) (userId hostname nodeVersion platform : String) :
    ServiceInfo :=
  { name := name
    port := o.port
    pid := some (effectivePid o.pid procPid)
    status := "running"
    startedAt := now
    healthUrl := o.healthUrl
    healthCheckUrl := healthCheckUrlFor o.port o.healthUrl
    metadata := (o.metadata.getD []) ++
      [("userId", userId), ("hostname", hostname), ("nodeVersion", nodeVersion),
       ("platform", platform), ("sessionId", userId ++ "-" ++ toString now)]
    lastHealthCheck := some now
    isHealthy := some true }

/-- `FirebaseServiceRegistry.register` (firebase-registry.ts lines
367-430): on the primary path write the service record and an online
presence record (arming the disconnect hook); store failures surface as
`RegistryUnavailableError`; without initialization the embedded file
registry handles the call. -/
def FirebaseServiceRegistry.register (initOk connOk : Bool) (st : FbStore)
    (fallbackLoad : Except String Registry) (fallbackSaveOk : Bool)
    (name : String) (o : RegisterOptions) (procPid now : Nat)
    (userId hostname nodeVersion platform : String) :
    Except RegError (FbStore ⊕ Registry) :=
  if initOk then
    if connOk then
      .ok (.inl
        { services := aset st.services name
            (FirebaseServiceRegistry.registerInfo name o procPid now userId hostname nodeVersion platform)
          presence := aset st.presence name
            ⟨true, now, effectivePid o.pid procPid, userId, hostname⟩ })
    else .error (.registryUnavailable "Failed to register service with Firebase")
  else
    (NodeServiceRegistry.register fallbackLoad fallbackSaveOk procPid now name o).map .inr

/-- The primary path of `FirebaseServiceRegistry.discover`
(firebase-registry.ts lines 442-488): read the service record, then the
presence record; missing or offline presence removes the service record and
reports absence; otherwise the record is returned, optionally health-probed
with the result written back. -/
def FirebaseServiceRegistry.discoverPrim (connOk : Bool) (st : FbStore)
    (includeHealth : Bool) (health : String → Bool) (now : Nat) (name : String) :
    Except RegError (Option ServiceInfo × FbStore) :=
  if connOk then
    match alookup st.services name with
    | none => .ok (none, st)
    | some svc =>
      match alookup st.presence name with
      | none => .ok (none, { st with services := aremove st.services name })
      | some pr =>
        if pr.online then
          if includeHealth then
            match svc.healthCheckUrl with
            | some url =>
              let svc2 := { svc with isHealthy := some (health url), lastHealthCheck := some now }
              .ok (some svc2, { st with services := aset st.services name svc2 })
            | none => .ok (some svc, st)
          else .ok (some svc, st)
        else .ok (none, { st with services := aremove st.services name })
  else .error (.registryUnavailable "Failed to discover service")

/-- `FirebaseServiceRegistry.unregister` (firebase-registry.ts lines
494-516): the primary path removes the service record and the presence
record unconditionally — the store's `remove()` succeeds on an absent key,
so no existence check happens and no `ServiceNotFoundError` is possible
there; only the file-backed fallback path can raise it. -/
def FirebaseServiceRegistry.unregister (initOk connOk : Bool) (st : FbStore)
    (fallbackLoad : Except String Registry) (fallbackSaveOk : Bool) (now : Nat)
    (name : String) : Except RegError (FbStore ⊕ Registry) :=
  if initOk then
    if connOk then
      .ok (.inl { services := aremove st.services name, presence := aremove st.presence name })
    else .error (.registryUnavailable "Failed to unregister service")
  else
    (NodeServiceRegistry.unregister fallbackLoad fallbackSaveOk now name).map .inr

/-- The primary path of `FirebaseServiceRegistry.listServices`
(firebase-registry.ts lines 540-578): keep the records whose presence is
online, removing the others from the store; a store failure raises
`RegistryUnavailableError`. -/
def FirebaseServiceRegistry.listServicesPrim (connOk : Bool) (st : FbStore) :
    Except RegError (List ServiceInfo × FbStore) :=
  if connOk then
    let keep := st.services.filter (fun p =>
      match alookup st.presence p.1 with
      | some pr => pr.online
      | none => false)
    .ok (keep.map (fun p => p.2), { st with services := keep })
  else .error (.registryUnavailable "Failed to list services")

/-- The removal loop of `FirebaseServiceRegistry.cleanup` on the primary
path (firebase-registry.ts lines 588-599): every listed record with a
health-check URL whose probe reports unhealthy is unregistered; a failing
unregister propagates its error. -/
def FirebaseServiceRegistry.cleanLoopPrim (connOk : Bool) (health : String → Bool) :
    List ServiceInfo → FbStore → Except RegError FbStore
  | [], st => .ok st
  | svc :: rest, st =>
    match svc.healthCheckUrl with
    | none => FirebaseServiceRegistry.cleanLoopPrim connOk health rest st
    | some url =>
      if health url then FirebaseServiceRegistry.cleanLoopPrim connOk health rest st
      else
        if connOk then
          FirebaseServiceRegistry.cleanLoopPrim connOk health rest
            { services := aremove st.services svc.name, presence := aremove st.presence svc.name }
        else .error (.registryUnavailable "Failed to unregister service")

/-- The removal loop of `FirebaseServiceRegistry.cleanup` when the adapter
is running on the file-backed fallback: each unhealthy record is removed
through `NodeServiceRegistry.unregister` on the current snapshot, whose
errors propagate. -/
def FirebaseServiceRegistry.cleanLoopFallback (saveOk : Bool) (health : String → Bool)
    (now : Nat) : List ServiceInfo → Registry → Except RegError Registry
  | [], reg => .ok reg
  | svc :: rest, reg =>
    match svc.healthCheckUrl with
    | none => FirebaseServiceRegistry.cleanLoopFallback saveOk health now rest reg
    | some url =>
      if health url then FirebaseServiceRegistry.cleanLoopFallback saveOk health now rest reg
      else
        match NodeServiceRegistry.unregister (.ok reg) saveOk now svc.name with
        | .ok reg2 => FirebaseServiceRegistry.cleanLoopFallback saveOk health now rest reg2
        | .error e => .error e

/-- `FirebaseServiceRegistry.cleanup` (firebase-registry.ts lines
583-600): list the services — with no surrounding catch — then unregister
every unhealthy one; an error from either step propagates to the caller. -/
def FirebaseServiceRegistry.cleanup (initOk connOk : Bool) (st : FbStore)
    (fallbackLoadOk fallbackSaveOk : Bool) (fileReg : Registry)
    (health : String → Bool) (now : Nat) : Except RegError (FbStore ⊕ Registry) :=
  if initOk then
    match FirebaseServiceRegistry.listServicesPrim connOk st with
    | .error e => .error e
    | .ok (svcs, st2) =>
      (FirebaseServiceRegistry.cleanLoopPrim connOk health svcs st2).map .inl
  else
    if fallbackLoadOk then
      (FirebaseServiceRegistry.cleanLoopFallback fallbackSaveOk health now
        (fileReg.services.map (fun p => p.2)) fileReg).map .inr
    else .error (.registryUnavailable "Failed to list services")

/-- `FirebaseServiceRegistry.discover` (firebase-registry.ts lines
435-489), both branches of the initialization gate: an initialized adapter
runs the primary-path read (`discoverPrim`, returning the possibly
self-healed store), an uninitialized one delegates to the embedded
file-backed registry's `discover` with the caller's options (no store to
update, hence `none`). -/
def FirebaseServiceRegistry.discover (initOk connOk : Bool) (st : FbStore)
    (fallbackLoads : Nat → Except String Registry) (includeHealth : Bool)
    (health : String → Bool) (saveOk : Bool) (now : Nat) (name : String)
    (retries : Nat) : Except RegError (Option ServiceInfo × Option FbStore) :=
  if initOk then
    (FirebaseServiceRegistry.discoverPrim connOk st includeHealth health now name).map
      (fun r => (r.1, some r.2))
  else
    (NodeServiceRegistry.discover fallbackLoads includeHealth health saveOk now name
      retries).map (fun r => (r, none))

/-- Result of the event-store adapter's health check together with the
number of HTTP health probes it performed. -/
structure FbHealthOut where
  result : Except RegError Bool
  healthProbes : Nat
deriving DecidableEq

/-- `FirebaseServiceRegistry.checkHealth` (firebase-registry.ts lines
521-535): discover the record (through the initialization gate, so either
the primary store or the file fallback), raise `ServiceNotFoundError` on
absence, return `true` with no probe when the record has no health-check
URL, otherwise perform one probe (the probe catches every failure and
returns a boolean, so no retry loop exists here). -/
def FirebaseServiceRegistry.checkHealth (initOk connOk : Bool) (st : FbStore)
    (fallbackLoads : Nat → Except String Registry) (health : String → Bool)
    (saveOk : Bool) (now : Nat) (name : String) (retries : Nat) : FbHealthOut :=
  match FirebaseServiceRegistry.discover initOk connOk st fallbackLoads false health
      saveOk now name retries with
  | .error e => ⟨.error e, 0⟩
  | .ok (none, _) => ⟨.error (.serviceNotFound name), 0⟩
  | .ok (some svc, _) =>
    match svc.healthCheckUrl with
    | none => ⟨.ok true, 0⟩
    | some url => ⟨.ok (health url), 1⟩

/-! ## Helper lemmas about the association-map operations -/

theorem alookup_aset_self {α : Type} (l : List (String × α)) (n : String) (v : α) :
    alookup (aset l n v) n = some v := by
  induction l with
  | nil => simp [aset, alookup]
  | cons p rest ih =>
    rcases p with ⟨k, w⟩
    by_cases h : k = n
    · simp [aset, h, alookup]
    · simp [aset, h, alookup, ih]

theorem alookup_aremove_self {α : Type} (l : List (String × α)) (n : String) :
    alookup (aremove l n) n = none := by
  induction l with
  | nil => rfl
  | cons p rest ih =>
    rcases p with ⟨k, w⟩
    by_cases h : k = n
    · simpa [aremove, List.filter_cons, h] using ih
    · simpa [aremove, List.filter_cons, h, alookup] using ih

/-! ## Sample records used by concrete witnesses and counterexamples -/

/-- A record with no process id and no health-check URL. -/
def svcPlain : ServiceInfo :=
  ⟨"plain", 3000, none, "running", 0, none, none, [], none, none⟩

/-- A record whose process is probed and whose health endpoint is probed. -/
def svcProbed : ServiceInfo :=
  ⟨"probed", 3000, some 5, "running", 0, some "/health", some "u", [], none, none⟩

/-- Registration options with an explicit pid, health path and empty
metadata. -/
def oX : RegisterOptions := ⟨3000, some 42, some "/health", some []⟩

/-! ## C1 — unregister on an absent name -/

/-- C1 counterexample: on the event-store adapter's primary path,
`unregister` of a never-registered name succeeds (the store's `remove()` is
a no-op on an absent key) instead of raising `ServiceNotFoundError` as the
claim demands. -/
theorem c1_counterexample :
    FirebaseServiceRegistry.unregister true true ⟨[], []⟩ (.ok ⟨[], 0⟩) true 5 "ghost" =
      .ok (.inl ⟨[], []⟩) ∧
    FirebaseServiceRegistry.unregister true true ⟨[], []⟩ (.ok ⟨[], 0⟩) true 5 "ghost" ≠
      .error (.serviceNotFound "ghost") := by
  exact ⟨rfl, by decide⟩

/-- C1 (amended): the file-backed adapter's `unregister` raises
`ServiceNotFoundError` on an absent name and removes the record on a
present name; the event-store adapter's primary path instead succeeds
regardless of presence, removing the service and presence keys
unconditionally — it raises NotFound only when operating through its
file-backed fallback. -/
theorem c1_unregister_contract (reg : Registry) (name : String) (now : Nat)
    (st : FbStore) (fl : Except String Registry) (fsOk : Bool) :
    (alookup reg.services name = none →
      NodeServiceRegistry.unregister (.ok reg) true now name =
        .error (.serviceNotFound name)) ∧
    (∀ svc, alookup reg.services name = some svc →
      NodeServiceRegistry.unregister (.ok reg) true now name =
        .ok ⟨aremove reg.services name, now⟩ ∧
      alookup (aremove reg.services name) name = none) ∧
    (FirebaseServiceRegistry.unregister true true st fl fsOk now name =
      .ok (.inl ⟨aremove st.services name, aremove st.presence name⟩)) := by
  refine ⟨?_, ?_, rfl⟩
  · intro h
    unfold NodeServiceRegistry.unregister
    dsimp only
    rw [h]
  · intro svc h
    unfold NodeServiceRegistry.unregister
    dsimp only
    rw [h]
    exact ⟨rfl, alookup_aremove_self _ _⟩

/-- Witness for `c1_unregister_contract`: the absent case raises NotFound
and the present case removes the record. -/
theorem c1_unregister_contract_witness :
    NodeServiceRegistry.unregister (.ok ⟨[], 0⟩) true 7 "svc" =
      .error (.serviceNotFound "svc") ∧
    NodeServiceRegistry.unregister (.ok ⟨[("plain", svcPlain)], 0⟩) true 7 "plain" =
      .ok ⟨aremove [("plain", svcPlain)] "plain", 7⟩ :=
  ⟨(c1_unregister_contract ⟨[], 0⟩ "svc" 7 ⟨[], []⟩ (.ok ⟨[], 0⟩) true).1 rfl,
   ((c1_unregister_contract ⟨[("plain", svcPlain)], 0⟩ "plain" 7 ⟨[], []⟩ (.ok ⟨[], 0⟩) true).2.1
      svcPlain (by decide)).1⟩

/-! ## C2 — cleanup and error propagation -/

/-- C2 counterexample: the event-store adapter's `cleanup` calls
`listServices` with no surrounding catch, so a store failure there
propagates to the caller as `RegistryUnavailableError` — `cleanup` is not
raise-free on every adapter. -/
theorem c2_counterexample :
    FirebaseServiceRegistry.cleanup true false ⟨[], []⟩ true true ⟨[], 0⟩ (fun _ => true) 0 =
      .error (.registryUnavailable "Failed to list services") := by
  rfl

/-- C2 (amended): the file-backed adapter's `cleanup` never raises — every
load or save failure is caught and swallowed — and the HTTP adapter's
`cleanup` only clears its cache and never raises; the event-store adapter's
`cleanup`, however, propagates failures of its list or unregister steps. -/
theorem c2_cleanup_never_raises_file_browser (load : Except String Registry)
    (alive : Nat → Bool) (health : String → Bool) (saveOk : Bool)
    (now timeout : Nat) (cache : Option (Registry × Nat)) :
    (∃ r, NodeServiceRegistry.cleanup load alive health saveOk now timeout = .ok r) ∧
    BrowserServiceRegistry.cleanup cache = (.ok (), none) := by
  refine ⟨?_, rfl⟩
  unfold NodeServiceRegistry.cleanup
  cases load with
  | error e => exact ⟨none, rfl⟩
  | ok reg =>
    dsimp only
    split
    · split
      · exact ⟨some _, rfl⟩
      · exact ⟨none, rfl⟩
    · exact ⟨none, rfl⟩


/-! ## C3 — the file adapter's staleness rule -/

/-- Shared helper: a snapshot saved by the file adapter's cleanup is the
original snapshot filtered to the non-stale records. -/
theorem cleanup_ok_some_eq_filter (alive : Nat → Bool) (health : String → Bool)
    (now timeout : Nat) (reg reg2 : Registry)
    (h : NodeServiceRegistry.cleanup (.ok reg) alive health true now timeout =
      .ok (some reg2)) :
    reg2 = ⟨reg.services.filter
      (fun p => !NodeServiceRegistry.staleCheck alive health now timeout p.2), now⟩ := by
  unfold NodeServiceRegistry.cleanup at h
  dsimp only at h
  by_cases hch : (reg.services.filter
      (fun p => !NodeServiceRegistry.staleCheck alive health now timeout p.2)).length ≠
      reg.services.length
  · rw [if_pos hch, if_pos rfl] at h
    exact (Option.some.inj (Except.ok.inj h)).symm
  · rw [if_neg hch] at h
    cases h

/-- Modelled from the spec's words, for comparison with the code: a record
is stale only when its age exceeds the timeout AND (when it has a truthy
process id) the process probe fails AND (when it has a health-check URL)
the health probe fails — all applicable checks must agree. -/
def specStaleAllAgree (alive : Nat → Bool) (health : String → Bool)
    (now timeout : Nat) (s : ServiceInfo) : Bool :=
  decide (timeout < now - s.startedAt) &&
  (match s.pid with
   | some p => if p ≠ 0 then !alive p else true
   | none => true) &&
  (match s.healthCheckUrl with
   | some url => !health url
   | none => true)

/-- C3 counterexample: a record past the timeout whose process is alive but
whose health probe fails is removed by the code, although the claim's
all-checks-must-agree rule keeps it (the process probe still shows life). -/
theorem c3_counterexample :
    NodeServiceRegistry.staleCheck (fun _ => true) (fun _ => false) 100 10 svcProbed = true ∧
    specStaleAllAgree (fun _ => true) (fun _ => false) 100 10 svcProbed = false ∧
    NodeServiceRegistry.cleanup (.ok ⟨[("probed", svcProbed)], 0⟩)
        (fun _ => true) (fun _ => false) true 100 10 =
      .ok (some ⟨[], 100⟩) := by
  exact ⟨rfl, rfl, rfl⟩

/-- C3 (amended): the file adapter's cleanup removes a record exactly when
its age exceeds the service timeout AND (it has a truthy process id whose
existence probe fails — in which case the health probe is skipped — OR it
has a health-check URL whose probe reports unhealthy, even when the
process probe just showed the process alive); when a pruned snapshot is
saved the surviving records are exactly the non-stale ones, and a cleanup
that saved nothing found nothing stale. -/
theorem c3_cleanup_removal_rule (alive : Nat → Bool) (health : String → Bool)
    (now timeout : Nat) (s : ServiceInfo) (reg reg2 : Registry) :
    (NodeServiceRegistry.staleCheck alive health now timeout s =
      (decide (timeout < now - s.startedAt) &&
        ((match s.pid with
          | some p => (p != 0) && !alive p
          | none => false) ||
         (match s.healthCheckUrl with
          | some url => !health url
          | none => false)))) ∧
    (NodeServiceRegistry.cleanup (.ok reg) alive health true now timeout = .ok (some reg2) →
      reg2 = ⟨reg.services.filter
        (fun p => !NodeServiceRegistry.staleCheck alive health now timeout p.2), now⟩) ∧
    (NodeServiceRegistry.cleanup (.ok reg) alive health true now timeout = .ok none →
      reg.services.filter
        (fun p => !NodeServiceRegistry.staleCheck alive health now timeout p.2) = reg.services) := by
  refine ⟨?_, ?_, ?_⟩
  · unfold NodeServiceRegistry.staleCheck
    by_cases hage : timeout < now - s.startedAt
    · rcases s.pid with _ | p
      · rcases s.healthCheckUrl with _ | url <;> simp [hage]
      · by_cases hp : p ≠ 0
        · have hp2 : (p != 0) = true := by simpa using hp
          cases ha : alive p
          · rcases s.healthCheckUrl with _ | url <;> simp [hage, hp, hp2, ha]
          · rcases s.healthCheckUrl with _ | url <;> simp [hage, hp, hp2, ha]
        · have hp2 : (p != 0) = false := by simpa using hp
          rcases s.healthCheckUrl with _ | url <;> simp [hage, hp, hp2]
    · simp [hage]
  · exact cleanup_ok_some_eq_filter alive health now timeout reg reg2
  · intro h
    unfold NodeServiceRegistry.cleanup at h
    dsimp only at h
    by_cases hch : (reg.services.filter
        (fun p => !NodeServiceRegistry.staleCheck alive health now timeout p.2)).length ≠
        reg.services.length
    · rw [if_pos hch, if_pos rfl] at h
      cases h
    · push_neg at hch
      exact (List.filter_sublist _).eq_of_length hch

/-- Witness for `c3_cleanup_removal_rule`: the pruned snapshot of the
concrete store holding only the probed record is exactly the filtered
snapshot. -/
theorem c3_cleanup_removal_rule_witness :
    (⟨[], 100⟩ : Registry) =
      ⟨(([("probed", svcProbed)] : List (String × ServiceInfo)).filter
        (fun p => !NodeServiceRegistry.staleCheck (fun _ => true) (fun _ => false) 100 10 p.2)),
       100⟩ :=
  (c3_cleanup_removal_rule (fun _ => true) (fun _ => false) 100 10 svcProbed
    ⟨[("probed", svcProbed)], 0⟩ ⟨[], 100⟩).2.1 rfl

/-! ## C10 — records with no applicable liveness probe are never cleaned -/

/-- C10: the file adapter's cleanup never removes a record that has neither
a (truthy) process id nor a health-check URL, however far its age exceeds
the service timeout: such a record is never marked stale, and it survives
in any snapshot that cleanup saves. -/
theorem c10_cleanup_retains_unprobeable (alive : Nat → Bool) (health : String → Bool)
    (now timeout : Nat) (s : ServiceInfo) (n : String) (reg reg2 : Registry)
    (hpid : s.pid = none) (hurl : s.healthCheckUrl = none) :
    NodeServiceRegistry.staleCheck alive health now timeout s = false ∧
    ((n, s) ∈ reg.services →
      NodeServiceRegistry.cleanup (.ok reg) alive health true now timeout = .ok (some reg2) →
      (n, s) ∈ reg2.services) := by
  have hstale : NodeServiceRegistry.staleCheck alive health now timeout s = false := by
    unfold NodeServiceRegistry.staleCheck
    rw [hpid, hurl]
    by_cases hage : timeout < now - s.startedAt <;> simp [hage]
  refine ⟨hstale, ?_⟩
  intro hmem hclean
  have h2 := cleanup_ok_some_eq_filter alive health now timeout reg reg2 hclean
  subst h2
  simp only [List.mem_filter]
  exact ⟨hmem, by simp [hstale]⟩

/-- Witness for `c10_cleanup_retains_unprobeable`: in a store holding a
probe-less record and a dead-process record, cleanup prunes only the
latter; the probe-less record survives. -/
theorem c10_cleanup_retains_unprobeable_witness :
    ("plain", svcPlain) ∈
      (⟨[("plain", svcPlain)], 100⟩ : Registry).services :=
  (c10_cleanup_retains_unprobeable (fun _ => false) (fun _ => true) 100 10 svcPlain
    "plain" ⟨[("plain", svcPlain), ("probed", svcProbed)], 0⟩ ⟨[("plain", svcPlain)], 100⟩
    rfl rfl).2 (by decide) (by decide)

/-! ## C4 — stickiness of the fallback decision -/

/-- C4 counterexample: with a first initialization attempt that fails and a
second that succeeds, the first operation falls back to the file registry
but the very next operation on the same instance attempts the primary
store again (and reaches it) — the fallback decision is not sticky. -/
theorem c4_counterexample :
    FirebaseServiceRegistry.runOps [false, true] false =
      [⟨false, true, false⟩, ⟨true, true, true⟩] := by
  rfl

/-- C4 (amended): the initialization decision is sticky only in the
success direction: once an operation finds the adapter initialized, it and
every later operation skip the initialization attempt and use the primary
store; but after a failed attempt the adapter stays uninitialized and the
next operation attempts the primary store's initialization again. -/
theorem c4_fallback_stickiness :
    (∀ e, FirebaseServiceRegistry.opGate true e = ⟨true, false, true⟩) ∧
    (∀ e, (FirebaseServiceRegistry.opGate false e).attemptedPrimary = true ∧
      (FirebaseServiceRegistry.opGate false e).isInitialized = e) ∧
    (∀ envs : List Bool, ∀ st : Bool, st = true →
      ∀ o ∈ FirebaseServiceRegistry.runOps envs st,
        o.attemptedPrimary = false ∧ o.usedPrimary = true) := by
  refine ⟨fun e => rfl, fun e => ⟨rfl, rfl⟩, ?_⟩
  intro envs
  induction envs with
  | nil => intro st hst o ho; cases ho
  | cons e rest ih =>
    intro st hst o ho
    subst hst
    simp only [FirebaseServiceRegistry.runOps, List.mem_cons] at ho
    rcases ho with rfl | ho
    · exact ⟨rfl, rfl⟩
    · exact ih true rfl o ho

/-- Witness for `c4_fallback_stickiness`: the single operation of an
already-initialized instance does not re-attempt initialization. -/
theorem c4_fallback_stickiness_witness :
    (FbOp.mk true false true).attemptedPrimary = false ∧
    (FbOp.mk true false true).usedPrimary = true :=
  c4_fallback_stickiness.2.2 [true] true rfl ⟨true, false, true⟩ (by decide)

/-! ## C5 — discover treats absence as a normal outcome -/

theorem nodeDiscoverGo_first_success (loads : Nat → Except String Registry)
    (includeHealth : Bool) (health : String → Bool) (saveOk : Bool) (now : Nat)
    (name : String) :
    ∀ (j : Nat) (fuel attempt : Nat) (hasErr : Bool) (reg : Registry),
      j < fuel →
      (∀ i, i < j → ∃ e, loads (attempt + i) = .error e) →
      loads (attempt + j) = .ok reg →
      alookup reg.services name = none →
      NodeServiceRegistry.discoverGo loads includeHealth health saveOk now name
        attempt fuel hasErr = .ok none := by
  intro j
  induction j with
  | zero =>
    intro fuel attempt hasErr reg hfuel _ hok habs
    rcases fuel with _ | f
    · omega
    · unfold NodeServiceRegistry.discoverGo
      rw [Nat.add_zero] at hok
      rw [hok]
      dsimp only
      rw [habs]
  | succ j ih =>
    intro fuel attempt hasErr reg hfuel hfail hok habs
    rcases fuel with _ | f
    · omega
    · obtain ⟨e, he⟩ := hfail 0 (Nat.succ_pos j)
      rw [Nat.add_zero] at he
      unfold NodeServiceRegistry.discoverGo
      rw [he]
      dsimp only
      refine ih f (attempt + 1) true reg (by omega) ?_ ?_ habs
      · intro i hi
        obtain ⟨e2, he2⟩ := hfail (i + 1) (by omega)
        exact ⟨e2, by rw [show attempt + 1 + i = attempt + (i + 1) by omega]; exact he2⟩
      · rw [show attempt + 1 + j = attempt + (j + 1) by omega]
        exact hok

theorem browserDiscoverGo_first_success (nets : Nat → Except String Registry)
    (includeHealth : Bool) (health : String → Bool) (now : Nat) (name : String) :
    ∀ (j : Nat) (fuel attempt : Nat) (hasErr : Bool) (acc : Nat) (reg : Registry),
      j < fuel →
      (∀ i, i < j → ∃ e, nets (attempt + i) = .error e) →
      nets (attempt + j) = .ok reg →
      alookup reg.services name = none →
      (BrowserServiceRegistry.discoverGo nets includeHealth health now name
        none attempt fuel hasErr acc).result = .ok none := by
  intro j
  induction j with
  | zero =>
    intro fuel attempt hasErr acc reg hfuel _ hok habs
    rcases fuel with _ | f
    · omega
    · unfold BrowserServiceRegistry.discoverGo
      unfold BrowserServiceRegistry.fetchRegistry
      rw [Nat.add_zero] at hok
      rw [hok]
      dsimp only
      rw [habs]
  | succ j ih =>
    intro fuel attempt hasErr acc reg hfuel hfail hok habs
    rcases fuel with _ | f
    · omega
    · obtain ⟨e, he⟩ := hfail 0 (Nat.succ_pos j)
      rw [Nat.add_zero] at he
      unfold BrowserServiceRegistry.discoverGo
      unfold BrowserServiceRegistry.fetchRegistry
      rw [he]
      dsimp only
      refine ih f (attempt + 1) true (acc + 1) reg (by omega) ?_ ?_ habs
      · intro i hi
        obtain ⟨e2, he2⟩ := hfail (i + 1) (by omega)
        exact ⟨e2, by rw [show attempt + 1 + i = attempt + (i + 1) by omega]; exact he2⟩
      · rw [show attempt + 1 + j = attempt + (j + 1) by omega]
        exact hok

/-- C5: on the file-backed and HTTP-backed adapters, `discover` of a name
absent from the store returns `null` without raising, and the retry budget
is consumed only by store-access failures: the loop ends at the first
successful load (attempt `j`, within the `retries` budget) even when that
load finds no record — absence is never retried and never an error. -/
theorem c5_discover_absent_returns_null (loads nets : Nat → Except String Registry)
    (includeHealth : Bool) (health : String → Bool) (saveOk : Bool) (now : Nat)
    (name : String) (retries j : Nat) (reg regB : Registry)
    (st : FbStore) (connOk : Bool)
    (hj : j ≤ retries)
    (hfail : ∀ i, i < j → ∃ e, loads i = .error e)
    (hok : loads j = .ok reg)
    (habs : alookup reg.services name = none)
    (hfailB : ∀ i, i < j → ∃ e, nets i = .error e)
    (hokB : nets j = .ok regB)
    (habsB : alookup regB.services name = none)
    (habsF : alookup st.services name = none) :
    NodeServiceRegistry.discover loads includeHealth health saveOk now name retries =
      .ok none ∧
    (BrowserServiceRegistry.discover nets includeHealth health none now name
      retries).result = .ok none ∧
    FirebaseServiceRegistry.discover true true st loads includeHealth health saveOk
      now name retries = .ok (none, some st) ∧
    FirebaseServiceRegistry.discover false connOk st loads includeHealth health saveOk
      now name retries = .ok (none, none) := by
  have hnode : NodeServiceRegistry.discover loads includeHealth health saveOk now name
      retries = .ok none := by
    unfold NodeServiceRegistry.discover
    exact nodeDiscoverGo_first_success loads includeHealth health saveOk now name
      j (retries + 1) 0 false reg (by omega)
      (by intro i hi; simpa using hfail i hi) (by simpa using hok) habs
  refine ⟨hnode, ?_, ?_, ?_⟩
  · unfold BrowserServiceRegistry.discover
    exact browserDiscoverGo_first_success nets includeHealth health now name
      j (retries + 1) 0 false 0 regB (by omega)
      (by intro i hi; simpa using hfailB i hi) (by simpa using hokB) habsB
  · unfold FirebaseServiceRegistry.discover FirebaseServiceRegistry.discoverPrim
    rw [if_pos rfl, if_pos rfl, habsF]
    rfl
  · unfold FirebaseServiceRegistry.discover
    rw [if_neg (by exact fun h => Bool.noConfusion h), hnode]
    rfl

/-- Witness for `c5_discover_absent_returns_null`: a store that loads
successfully but holds no record for the name yields empty on all three
adapters at once — the event-store adapter on both its primary path and
its file fallback — with zero retries consumed. -/
theorem c5_discover_absent_returns_null_witness :
    NodeServiceRegistry.discover (fun _ => .ok ⟨[], 0⟩) false (fun _ => true) true 0
      "ghost" 3 = .ok none ∧
    (BrowserServiceRegistry.discover (fun _ => .ok ⟨[], 0⟩) false (fun _ => true) none 0
      "ghost" 3).result = .ok none ∧
    FirebaseServiceRegistry.discover true true ⟨[], []⟩ (fun _ => .ok ⟨[], 0⟩) false
      (fun _ => true) true 0 "ghost" 3 = .ok (none, some ⟨[], []⟩) ∧
    FirebaseServiceRegistry.discover false true ⟨[], []⟩ (fun _ => .ok ⟨[], 0⟩) false
      (fun _ => true) true 0 "ghost" 3 = .ok (none, none) :=
  c5_discover_absent_returns_null (fun _ => .ok ⟨[], 0⟩) (fun _ => .ok ⟨[], 0⟩)
    false (fun _ => true) true 0 "ghost" 3 0 ⟨[], 0⟩ ⟨[], 0⟩ ⟨[], []⟩ true
    (by omega) (fun i hi => absurd hi (by omega)) rfl rfl
    (fun i hi => absurd hi (by omega)) rfl rfl rfl

/-! ## C6 — register-then-discover round trip -/

/-- C6 counterexample: on the event-store adapter, registering with empty
supplied metadata and immediately discovering returns a record whose
metadata has been augmented with the `userId`, `hostname`, `nodeVersion`,
`platform` and `sessionId` keys — it does not equal the supplied metadata,
and the extra keys are inside `metadata`, not among the derived top-level
fields the claim allows. -/
theorem c6_counterexample :
    FirebaseServiceRegistry.register true true ⟨[], []⟩ (.ok ⟨[], 0⟩) true "svc" oX 7 1000
        "alice" "host" "v18" "linux" =
      .ok (.inl ⟨[("svc", FirebaseServiceRegistry.registerInfo "svc" oX 7 1000
          "alice" "host" "v18" "linux")],
        [("svc", ⟨true, 1000, 42, "alice", "host"⟩)]⟩) ∧
    FirebaseServiceRegistry.discoverPrim true
        ⟨[("svc", FirebaseServiceRegistry.registerInfo "svc" oX 7 1000
            "alice" "host" "v18" "linux")],
          [("svc", ⟨true, 1000, 42, "alice", "host"⟩)]⟩
        false (fun _ => true) 1000 "svc" =
      .ok (some (FirebaseServiceRegistry.registerInfo "svc" oX 7 1000
          "alice" "host" "v18" "linux"),
        ⟨[("svc", FirebaseServiceRegistry.registerInfo "svc" oX 7 1000
            "alice" "host" "v18" "linux")],
          [("svc", ⟨true, 1000, 42, "alice", "host"⟩)]⟩) ∧
    (FirebaseServiceRegistry.registerInfo "svc" oX 7 1000
        "alice" "host" "v18" "linux").metadata ≠ oX.metadata.getD [] := by
  exact ⟨rfl, rfl, by decide⟩

/-- C6 (amended): on the file-backed adapter the round trip is exact — the
discovered record's `port`, `pid` (the supplied pid, via the JS-truthiness
default), `healthUrl` and `metadata` equal those supplied, with only
derived fields (`healthCheckUrl`, timestamps, `status`, health flags)
added; on the event-store adapter's primary path `port`, `pid` and
`healthUrl` round-trip likewise but `metadata` comes back as the supplied
entries extended with the adapter's environment keys. -/
theorem c6_round_trip (reg : Registry) (name : String) (o : RegisterOptions)
    (procPid now retries : Nat) (m : List (String × String))
    (health : String → Bool) (st : FbStore)
    (userId hostname nodeVersion platform : String)
    (hm : o.metadata = some m) :
    (NodeServiceRegistry.register (.ok reg) true procPid now name o =
      .ok ⟨aset reg.services name (NodeServiceRegistry.registerInfo name o procPid now), now⟩) ∧
    (NodeServiceRegistry.discover
        (fun _ => .ok ⟨aset reg.services name (NodeServiceRegistry.registerInfo name o procPid now), now⟩)
        false health true now name retries =
      .ok (some (NodeServiceRegistry.registerInfo name o procPid now))) ∧
    ((NodeServiceRegistry.registerInfo name o procPid now).port = o.port ∧
     (NodeServiceRegistry.registerInfo name o procPid now).pid =
        some (effectivePid o.pid procPid) ∧
     (NodeServiceRegistry.registerInfo name o procPid now).healthUrl = o.healthUrl ∧
     (NodeServiceRegistry.registerInfo name o procPid now).metadata = m ∧
     (NodeServiceRegistry.registerInfo name o procPid now).healthCheckUrl =
        healthCheckUrlFor o.port o.healthUrl ∧
     (NodeServiceRegistry.registerInfo name o procPid now).status = "running") ∧
    (FirebaseServiceRegistry.register true true st (.ok reg) true name o procPid now
        userId hostname nodeVersion platform =
      .ok (.inl ⟨aset st.services name
          (FirebaseServiceRegistry.registerInfo name o procPid now userId hostname nodeVersion platform),
        aset st.presence name ⟨true, now, effectivePid o.pid procPid, userId, hostname⟩⟩)) ∧
    (FirebaseServiceRegistry.discoverPrim true
        ⟨aset st.services name
          (FirebaseServiceRegistry.registerInfo name o procPid now userId hostname nodeVersion platform),
         aset st.presence name ⟨true, now, effectivePid o.pid procPid, userId, hostname⟩⟩
        false health now name =
      .ok (some (FirebaseServiceRegistry.registerInfo name o procPid now userId hostname nodeVersion platform),
        ⟨aset st.services name
          (FirebaseServiceRegistry.registerInfo name o procPid now userId hostname nodeVersion platform),
         aset st.presence name ⟨true, now, effectivePid o.pid procPid, userId, hostname⟩⟩)) ∧
    ((FirebaseServiceRegistry.registerInfo name o procPid now userId hostname nodeVersion platform).port = o.port ∧
     (FirebaseServiceRegistry.registerInfo name o procPid now userId hostname nodeVersion platform).pid =
        some (effectivePid o.pid procPid) ∧
     (FirebaseServiceRegistry.registerInfo name o procPid now userId hostname nodeVersion platform).healthUrl =
        o.healthUrl ∧
     (FirebaseServiceRegistry.registerInfo name o procPid now userId hostname nodeVersion platform).metadata =
        m ++ [("userId", userId), ("hostname", hostname), ("nodeVersion", nodeVersion),
          ("platform", platform), ("sessionId", userId ++ "-" ++ toString now)]) := by
  refine ⟨rfl, ?_, ⟨rfl, rfl, rfl, ?_, rfl, rfl⟩, rfl, ?_, ⟨rfl, rfl, rfl, ?_⟩⟩
  · unfold NodeServiceRegistry.discover NodeServiceRegistry.discoverGo
    dsimp only
    rw [show alookup (aset reg.services name (NodeServiceRegistry.registerInfo name o procPid now)) name =
      some (NodeServiceRegistry.registerInfo name o procPid now) from alookup_aset_self _ _ _]
    rfl
  · simp [NodeServiceRegistry.registerInfo, hm]
  · unfold FirebaseServiceRegistry.discoverPrim
    dsimp only
    rw [alookup_aset_self, alookup_aset_self]
    rfl
  · simp [FirebaseServiceRegistry.registerInfo, hm]

/-- Witness for `c6_round_trip`: the concrete round trip on the file
adapter returns the registered record, whose metadata is the (empty)
supplied metadata. -/
theorem c6_round_trip_witness :
    NodeServiceRegistry.discover
        (fun _ => .ok ⟨aset ([] : List (String × ServiceInfo)) "svc"
          (NodeServiceRegistry.registerInfo "svc" oX 7 1000), 1000⟩)
        false (fun _ => true) true 1000 "svc" 3 =
      .ok (some (NodeServiceRegistry.registerInfo "svc" oX 7 1000)) ∧
    (NodeServiceRegistry.registerInfo "svc" oX 7 1000).metadata = [] :=
  ⟨(c6_round_trip ⟨[], 0⟩ "svc" oX 7 1000 3 [] (fun _ => true) ⟨[], []⟩
      "alice" "host" "v18" "linux" rfl).2.1,
   ((c6_round_trip ⟨[], 0⟩ "svc" oX 7 1000 3 [] (fun _ => true) ⟨[], []⟩
      "alice" "host" "v18" "linux" rfl).2.2.1).2.2.2.1⟩

/-! ## C7 — checkHealth without a health path -/

/-- C7 counterexample: on the HTTP adapter with a cold cache, `checkHealth`
of a registered record that has no health-check URL returns `true` but
performs one network fetch (the registry-snapshot download inside
`discover`) — it is not free of network access. -/
theorem c7_counterexample :
    (BrowserServiceRegistry.checkHealth (fun _ => .ok ⟨[("plain", svcPlain)], 0⟩)
        (fun _ => true) none 0 "plain" 3).result = .ok true ∧
    (BrowserServiceRegistry.checkHealth (fun _ => .ok ⟨[("plain", svcPlain)], 0⟩)
        (fun _ => true) none 0 "plain" 3).netFetches = 1 ∧
    (BrowserServiceRegistry.checkHealth (fun _ => .ok ⟨[("plain", svcPlain)], 0⟩)
        (fun _ => true) none 0 "plain" 3).healthProbes = 0 := by
  exact ⟨rfl, rfl, rfl⟩

/-- C7 (amended): for a registered record with no health path,
`checkHealth` returns `true` on every adapter without performing any
health-probe network access; the file adapter performs no network access at
all (its store is a local file), while the HTTP adapter still downloads the
registry snapshot — exactly one fetch from a cold cache — because its store
itself is reached over the network. -/
theorem c7_checkhealth_no_healthpath (dloads loads2 : Nat → Except String Registry)
    (saveOks : Nat → Bool) (nets : Nat → Except String Registry)
    (health : String → Bool) (now : Nat) (name : String) (retries : Nat)
    (reg regB : Registry) (svc svcB svcF : ServiceInfo)
    (st : FbStore) (prF : Presence)
    (h0 : dloads 0 = .ok reg)
    (hs : alookup reg.services name = some svc)
    (hu : svc.healthCheckUrl = none)
    (h0B : nets 0 = .ok regB)
    (hsB : alookup regB.services name = some svcB)
    (huB : svcB.healthCheckUrl = none)
    (hsF : alookup st.services name = some svcF)
    (hpF : alookup st.presence name = some prF)
    (honline : prF.online = true)
    (huF : svcF.healthCheckUrl = none) :
    NodeServiceRegistry.checkHealth dloads loads2 saveOks health now name retries =
      ⟨.ok true, 0⟩ ∧
    BrowserServiceRegistry.checkHealth nets health none now name retries =
      ⟨.ok true, some (regB, now), 1, 0⟩ ∧
    FirebaseServiceRegistry.checkHealth true true st dloads health true now name
      retries = ⟨.ok true, 0⟩ ∧
    FirebaseServiceRegistry.checkHealth false true st dloads health true now name
      retries = ⟨.ok true, 0⟩ := by
  refine ⟨?_, ?_, ?_, ?_⟩
  · unfold NodeServiceRegistry.checkHealth NodeServiceRegistry.discover
      NodeServiceRegistry.discoverGo
    rw [h0]
    simp [hs, hu]
  · unfold BrowserServiceRegistry.checkHealth BrowserServiceRegistry.discover
      BrowserServiceRegistry.discoverGo BrowserServiceRegistry.fetchRegistry
    rw [h0B]
    simp [hsB, huB]
  · unfold FirebaseServiceRegistry.checkHealth FirebaseServiceRegistry.discover
      FirebaseServiceRegistry.discoverPrim
    rw [if_pos rfl, if_pos rfl, hsF, hpF]
    simp [honline, huF, Except.map]
  · unfold FirebaseServiceRegistry.checkHealth FirebaseServiceRegistry.discover
      NodeServiceRegistry.discover NodeServiceRegistry.discoverGo
    rw [if_neg (by exact fun h => Bool.noConfusion h), h0]
    simp [hs, hu, Except.map]

/-- Witness for `c7_checkhealth_no_healthpath` at a concrete store holding
one record with no health path, present and online on the event-store
adapter's primary path. -/
theorem c7_checkhealth_no_healthpath_witness :
    NodeServiceRegistry.checkHealth (fun _ => .ok ⟨[("plain", svcPlain)], 0⟩)
        (fun _ => .ok ⟨[("plain", svcPlain)], 0⟩) (fun _ => true)
        (fun _ => true) 0 "plain" 3 = ⟨.ok true, 0⟩ ∧
    BrowserServiceRegistry.checkHealth (fun _ => .ok ⟨[("plain", svcPlain)], 0⟩)
        (fun _ => true) none 0 "plain" 3 =
      ⟨.ok true, some (⟨[("plain", svcPlain)], 0⟩, 0), 1, 0⟩ ∧
    FirebaseServiceRegistry.checkHealth true true
        ⟨[("plain", svcPlain)], [("plain", ⟨true, 0, 1, "alice", "host"⟩)]⟩
        (fun _ => .ok ⟨[("plain", svcPlain)], 0⟩) (fun _ => true) true 0 "plain" 3 =
      ⟨.ok true, 0⟩ ∧
    FirebaseServiceRegistry.checkHealth false true
        ⟨[("plain", svcPlain)], [("plain", ⟨true, 0, 1, "alice", "host"⟩)]⟩
        (fun _ => .ok ⟨[("plain", svcPlain)], 0⟩) (fun _ => true) true 0 "plain" 3 =
      ⟨.ok true, 0⟩ :=
  c7_checkhealth_no_healthpath (fun _ => .ok ⟨[("plain", svcPlain)], 0⟩)
    (fun _ => .ok ⟨[("plain", svcPlain)], 0⟩) (fun _ => true)
    (fun _ => .ok ⟨[("plain", svcPlain)], 0⟩) (fun _ => true) 0 "plain" 3
    ⟨[("plain", svcPlain)], 0⟩ ⟨[("plain", svcPlain)], 0⟩ svcPlain svcPlain svcPlain
    ⟨[("plain", svcPlain)], [("plain", ⟨true, 0, 1, "alice", "host"⟩)]⟩
    ⟨true, 0, 1, "alice", "host"⟩
    rfl (by decide) rfl rfl (by decide) rfl (by decide) (by decide) rfl rfl

/-! ## C8 — the HTTP adapter rejects writes -/

/-- Whether the first list starts with the second (character lists). -/
def listStartsWith : List Char → List Char → Bool
  | _, [] => true
  | [], _ :: _ => false
  | a :: as, b :: bs => a = b && listStartsWith as bs

/-- Whether the second list occurs inside the first as a contiguous run. -/
def listHasSub (l pat : List Char) : Bool :=
  match l with
  | [] => listStartsWith [] pat
  | c :: rest => listStartsWith (c :: rest) pat || listHasSub rest pat

/-- C8: on the HTTP (browser) adapter, `register` and `unregister` fail
unconditionally — for every input and store/cache state — with the
adapter's fixed unsupported-in-this-context error (a
`RegistryUnavailableError` whose message says the operation is not
supported in the browser environment), leaving the cache untouched and
performing no network call; both messages contain the phrase
"not supported". -/
theorem c8_browser_writes_unsupported (cache : Option (Registry × Nat))
    (name : String) (o : RegisterOptions) :
    BrowserServiceRegistry.register cache name o =
      (.error (.registryUnavailable BrowserServiceRegistry.registerMessage), cache, 0) ∧
    BrowserServiceRegistry.unregister cache name =
      (.error (.registryUnavailable BrowserServiceRegistry.unregisterMessage), cache, 0) ∧
    listHasSub BrowserServiceRegistry.registerMessage.toList "not supported".toList = true ∧
    listHasSub BrowserServiceRegistry.unregisterMessage.toList "not supported".toList = true := by
  exact ⟨rfl, rfl, by decide, by decide⟩
